import Mathlib

/-!
Verification development for the "10X Hyper Earning Engine" backend
(`src/main.py`).  The Python source is shallowly embedded below: pure
functions become Lean functions over `ℚ` (Python floats are modelled as
exact rationals), the mutable `user_sessions` dict becomes an explicit
map passed through each handler, and the Web3 collaborator becomes an
explicit environment describing node availability and the outcome of a
submitted transaction.
-/

/-- ASCII lowercasing of a single character, as `str.lower` acts on the
hexadecimal wallet addresses this service receives. -/
def lowerChar (c : Char) : Char :=
  if 65 ≤ c.toNat ∧ c.toNat ≤ 90 then Char.ofNat (c.toNat + 32) else c

/-- Python `s.lower()` on an ASCII string: lowercase every character. -/
def strLower (s : String) : String := ⟨s.data.map lowerChar⟩

/-- One entry of the `STRATEGIES` table: an annualized fractional rate
and a blend weight. -/
structure Strategy where
  apy : ℚ
  weight : ℚ
deriving DecidableEq, Repr

/-- The fixed 12-strategy table from `src/main.py` (`STRATEGIES`). -/
def STRATEGIES : List (String × Strategy) :=
  [("aave_lending", ⟨85/100, 15/100⟩),
   ("compound", ⟨78/100, 12/100⟩),
   ("uniswap_v3", ⟨245/100, 18/100⟩),
   ("curve_stable", ⟨125/100, 10/100⟩),
   ("yearn_vaults", ⟨198/100, 15/100⟩),
   ("convex", ⟨312/100, 10/100⟩),
   ("balancer", ⟨167/100, 8/100⟩),
   ("sushiswap", ⟨289/100, 5/100⟩),
   ("mev_arb", ⟨425/100, 3/100⟩),
   ("flashloan", ⟨512/100, 2/100⟩),
   ("governance", ⟨95/100, 1/100⟩),
   ("staking", ⟨142/100, 1/100⟩)]

/-- Constant `AI_BOOST = 2.5` from `src/main.py`. -/
def AI_BOOST : ℚ := 5/2

/-- Function `calculate_earnings(principal, seconds)` from `src/main.py`:
returns `(earnings, total_apy)` where
`total_apy = sum(apy * weight) * AI_BOOST` and
`earnings = principal * (total_apy / (365*24*3600)) * seconds`. -/
def calculate_earnings (principal seconds : ℚ) : ℚ × ℚ :=
  let total_apy := (STRATEGIES.map (fun p => p.2.apy * p.2.weight)).sum * AI_BOOST
  let annual_rate := total_apy
  let per_second_rate := annual_rate / (365 * 24 * 3600)
  (principal * per_second_rate * seconds, total_apy)

/-- The effective annualized rate exactly as the specification words it:
the weighted sum over the fixed strategy table of `apy_i * weight_i`,
multiplied by the fixed boost constant. -/
def effectiveRateSpec : ℚ :=
  (STRATEGIES.map (fun p => p.2.apy * p.2.weight)).sum * AI_BOOST

/-- One entry of the `user_sessions` dict from `src/main.py`. -/
structure Session where
  start_time : ℚ
  total_earned : ℚ
  last_mint_time : ℚ
  strategies : List String
deriving DecidableEq, Repr

/-- The `user_sessions` dict: a finite partial map from wallet strings to
sessions, modelled as a function into `Option Session`. -/
def SessionMap : Type := String → Option Session

/-- Dict assignment `user_sessions[wallet] = s`. -/
def SessionMap.insert (m : SessionMap) (w : String) (s : Session) : SessionMap :=
  fun k => if k = w then some s else m k

/-- Dict deletion `del user_sessions[wallet]` (no-op on absent keys, as in
`stop_engine`, which checks membership first). -/
def SessionMap.erase (m : SessionMap) (w : String) : SessionMap :=
  fun k => if k = w then none else m k

/-- The empty `user_sessions` dict at process start. -/
def emptySessions : SessionMap := fun _ => none

/-- Result of the chain interaction that `mint_tokens_to_wallet` performs
once a positive token amount is submitted: the receipt may confirm
(`status == 1`), revert (`status != 1`), the 120-second receipt wait may
time out, or some RPC step (gas price, nonce, build, sign, send) may
raise before submission. -/
inductive ChainResult where
  | confirmed (txHash : String) (blockNumber : ℕ)
  | reverted (txHash : String)
  | timeout
  | submitError (reason : String)
deriving DecidableEq, Repr

/-- The Web3 collaborator: whether `w3` is configured, whether
`admin_account` is configured, and what the chain does with a submitted
transaction for a given recipient and smallest-unit amount. -/
structure ChainEnv where
  w3 : Bool
  admin_account : Bool
  submit : String → ℤ → ChainResult

/-- Python `int()` applied to a rational: truncation toward zero, as in
`token_amount = int(amount * 10**18)`. -/
def pyInt (q : ℚ) : ℤ := if q < 0 then -(Rat.floor (-q)) else Rat.floor q

/-- Observable trace of one `mint_tokens_to_wallet` call: the Python
return value (`tx_hash.hex()` on confirmation, else `None`), whether
`send_raw_transaction` was reached, and the smallest-unit amount that was
transmitted, if any. -/
structure MintTrace where
  result : Option String
  submitted : Bool
  sentAmount : Option ℤ
deriving DecidableEq, Repr

/-- Function `mint_tokens_to_wallet(wallet_address, amount)` from `src/main.py`:
bails out when `w3`/`admin_account` are unconfigured; scales `amount` by
`10**18` with `int()`; refuses non-positive scaled amounts; otherwise
builds, signs and submits the mint transaction and waits for the
receipt, returning the hash only on a confirmed receipt. -/
def mint_tokens_to_wallet (env : ChainEnv) (wallet_address : String) (amount : ℚ) :
    MintTrace :=
  if env.w3 = false ∨ env.admin_account = false then ⟨none, false, none⟩
  else
    let token_amount : ℤ := pyInt (amount * 10 ^ 18)
    if token_amount ≤ 0 then ⟨none, false, none⟩
    else
      match env.submit wallet_address token_amount with
      | .confirmed txHash _ => ⟨some txHash, true, some token_amount⟩
      | .reverted _ => ⟨none, true, some token_amount⟩
      | .timeout => ⟨none, true, some token_amount⟩
      | .submitError _ => ⟨none, false, none⟩

/-- The JSON body returned by a successful `/api/engine/metrics` call. -/
structure MetricsSnapshot where
  totalProfit : ℚ
  hourlyRate : ℚ
  dailyProfit : ℚ
  activePositions : ℕ
  pendingRewards : ℚ
  total_apy_percent : ℚ
  ai_boost : ℚ
deriving DecidableEq, Repr

/-- Outcome of a metrics request: either the 400 `HTTPException` or the
success JSON. -/
inductive MetricsResult where
  | httpError (statusCode : ℕ) (detail : String)
  | ok (snapshot : MetricsSnapshot)
deriving DecidableEq, Repr

/-- Everything observable about one `get_metrics` call: the response,
the updated `user_sessions`, whether `mint_tokens_to_wallet` was invoked,
and whether it returned a truthy hash. -/
structure MetricsOutput where
  response : MetricsResult
  sessions : SessionMap
  mintCalled : Bool
  mintSucceeded : Bool

/-- A freshly initialized session, as built inline both by
`start_engine` and by `get_metrics` for unknown wallets. -/
def freshSession (now : ℚ) (strats : List String) : Session :=
  ⟨now, 0, now, strats⟩

/-- Handler `get_metrics` from `src/main.py`.  `x_wallet_address` is the header
(absent or present), `now` the value of `datetime.now().timestamp()`.
Python's `if not x_wallet_address` raises 400 for a missing or empty
header; otherwise the (lowercased) wallet's session is created if
absent, earnings for the whole elapsed run time are added to
`total_earned`, a mint is attempted when at least 5 seconds have passed
since `last_mint_time` and `w3` and `admin_account` are configured, and
only a truthy mint result resets `total_earned` and `last_mint_time`. -/
def get_metrics (env : ChainEnv) (sessions : SessionMap) (x_wallet_address : Option String)
    (now : ℚ) : MetricsOutput :=
  match x_wallet_address with
  | none => ⟨.httpError 400 "Wallet address header required", sessions, false, false⟩
  | some hdr =>
    if hdr = "" then ⟨.httpError 400 "Wallet address header required", sessions, false, false⟩
    else
      let wallet := strLower hdr
      let session0 := (sessions wallet).getD (freshSession now [])
      let seconds_running := now - session0.start_time
      let seconds_since_mint := now - session0.last_mint_time
      let principal : ℚ := 100000
      let new_earnings := (calculate_earnings principal seconds_running).1
      let total_apy := (calculate_earnings principal seconds_running).2
      let accumulated := session0.total_earned + new_earnings
      let attempt := decide ((5:ℚ) ≤ seconds_since_mint) && env.w3 && env.admin_account
      let trace := if attempt = true then mint_tokens_to_wallet env wallet accumulated
        else ⟨none, false, none⟩
      let sessionFinal : Session :=
        if trace.result.isSome = true then
          ⟨session0.start_time, 0, now, session0.strategies⟩
        else
          ⟨session0.start_time, accumulated, session0.last_mint_time, session0.strategies⟩
      let hourly_rate := if 0 < seconds_running then new_earnings / seconds_running * 3600 else 0
      let daily_rate := hourly_rate * 24
      { response := .ok
          { totalProfit := accumulated
            hourlyRate := hourly_rate
            dailyProfit := daily_rate
            activePositions := STRATEGIES.length
            pendingRewards := accumulated * (1/10)
            total_apy_percent := total_apy * 100
            ai_boost := AI_BOOST }
        sessions := SessionMap.insert sessions wallet sessionFinal
        mintCalled := attempt
        mintSucceeded := trace.result.isSome }

/-- Handler `start_engine` from `src/main.py`: overwrite the (lowercased)
wallet's session with a fresh one. -/
def start_engine (sessions : SessionMap) (walletAddress : String)
    (strategies : List String) (now : ℚ) : SessionMap :=
  SessionMap.insert sessions (strLower walletAddress) (freshSession now strategies)

/-- Handler `stop_engine` from `src/main.py`: `data.get("walletAddress", "")`,
lowercased, is removed from `user_sessions` when present. -/
def stop_engine (sessions : SessionMap) (walletAddress : Option String) : SessionMap :=
  SessionMap.erase sessions (strLower (walletAddress.getD ""))

/-- Trace-level model of one engine operation, for stating state-machine
invariants across `start_engine`, `get_metrics` and `stop_engine`. -/
inductive Op where
  | start (walletAddress : String) (strategies : List String)
  | metrics (x_wallet_address : Option String)
  | stop (walletAddress : Option String)

/-- Effect of one operation on the `user_sessions` dict. -/
def applyOp (env : ChainEnv) (m : SessionMap) (op : Op) (now : ℚ) : SessionMap :=
  match op with
  | .start w strats => start_engine m w strats now
  | .metrics hdr => (get_metrics env m hdr now).sessions
  | .stop w => stop_engine m w

/-- Well-formedness of the session dict at wall-clock time `T`: every
stored amount is non-negative and every stored timestamp lies in the
past. -/
def SessionsWF (m : SessionMap) (T : ℚ) : Prop :=
  ∀ w s, m w = some s →
    0 ≤ s.total_earned ∧ s.start_time ≤ T ∧ s.last_mint_time ≤ T

/-- Repeated polling of the metrics endpoint with a fixed header, one
call per listed timestamp. -/
def runQueries (env : ChainEnv) (hdr : String) (m : SessionMap) (ts : List ℚ) : SessionMap :=
  match ts with
  | [] => m
  | t :: rest => runQueries env hdr (get_metrics env m (some hdr) t).sessions rest

/-- A chain environment whose node always reverts the transaction. -/
def chainRevertEnv : ChainEnv := ⟨true, true, fun _ _ => .reverted "0xdead"⟩

/-- A chain environment whose node always confirms the transaction. -/
def chainConfirmEnv : ChainEnv := ⟨true, true, fun _ _ => .confirmed "0xbeef" 1⟩

/-- A chain environment with no node and no signing key. -/
def chainDownEnv : ChainEnv := ⟨false, false, fun _ _ => .timeout⟩

/-- A one-session dict: wallet `0xabc` opened at time 0. -/
def oneSessionMap : SessionMap := SessionMap.insert emptySessions "0xabc" ⟨0, 0, 0, []⟩

/-- Whether a metrics response is the caller-facing 400 error. -/
def metricsIsError (r : MetricsResult) : Bool :=
  match r with
  | .httpError _ _ => true
  | .ok _ => false

theorem strLower_0xabc : strLower "0xabc" = "0xabc" := by decide

/-- C2: for every elapsed duration `t ≥ 0` and principal `P`, the accrual
computation returns exactly `P * effectiveRate / (365*86400) * t`, where
the effective rate is the boosted weighted sum over the strategy table. -/
theorem C2_accrual_formula (P t : ℚ) (ht : 0 ≤ t) :
    (calculate_earnings P t).1 = P * effectiveRateSpec / (365 * 86400) * t := by
  simp only [calculate_earnings, effectiveRateSpec]
  ring

/-- Witness for C2 at `P = 100000`, `t = 3600`. -/
theorem C2_accrual_formula_witness :
    (0:ℚ) ≤ 3600 ∧
      (calculate_earnings 100000 3600).1 =
        100000 * effectiveRateSpec / (365 * 86400) * 3600 :=
  ⟨by norm_num, C2_accrual_formula 100000 3600 (by norm_num)⟩

theorem pyInt_nonpos {q : ℚ} (h : q ≤ 0) : pyInt q ≤ 0 := by
  rcases lt_or_eq_of_le h with h' | h'
  · simp only [pyInt, if_pos h']
    have h1 : (0:ℤ) ≤ Rat.floor (-q) := Rat.le_floor.mpr (by push_cast; linarith)
    omega
  · subst h'
    norm_num [pyInt, Rat.floor_def']

theorem pos_of_pyInt_pos {q : ℚ} (h : 0 < pyInt q) : 0 < q := by
  by_contra hc
  push_neg at hc
  have := pyInt_nonpos hc
  omega

theorem pyInt_pos_of_one_le {q : ℚ} (h : 1 ≤ q) : 0 < pyInt q := by
  have h0 : ¬ q < 0 := by linarith
  have h1 : (1:ℤ) ≤ Rat.floor q := Rat.le_floor.mpr (by exact_mod_cast h)
  simp only [pyInt, if_neg h0]
  omega

/-- Closed form of the accrual increment: the effective per-second rate
is `357 / 2336000000`. -/
theorem calculate_earnings_fst (P t : ℚ) :
    (calculate_earnings P t).1 = P * (357 / 2336000000) * t := by
  norm_num [calculate_earnings, STRATEGIES, AI_BOOST]

theorem calculate_earnings_fst_nonneg (P t : ℚ) (hP : 0 ≤ P) (ht : 0 ≤ t) :
    0 ≤ (calculate_earnings P t).1 := by
  rw [calculate_earnings_fst]
  positivity

theorem SessionMap.insert_self (m : SessionMap) (w : String) (s : Session) :
    SessionMap.insert m w s w = some s := by
  simp [SessionMap.insert]

theorem SessionMap.insert_other (m : SessionMap) (w k : String) (s : Session)
    (h : k ≠ w) : SessionMap.insert m w s k = m k := by
  simp [SessionMap.insert, h]

theorem SessionMap.erase_self (m : SessionMap) (w : String) :
    SessionMap.erase m w w = none := by
  simp [SessionMap.erase]

theorem SessionMap.erase_other (m : SessionMap) (w k : String) (h : k ≠ w) :
    SessionMap.erase m w k = m k := by
  simp [SessionMap.erase, h]

/-- On a valid header the mint gate is exactly: 5 seconds elapsed since
`last_mint_time` (of the existing or freshly created session), `w3`
configured, `admin_account` configured. -/
theorem get_metrics_mintCalled (env : ChainEnv) (m : SessionMap) (hdr : String)
    (now : ℚ) (hne : hdr ≠ "") :
    (get_metrics env m (some hdr) now).mintCalled =
      (decide ((5:ℚ) ≤ now - ((m (strLower hdr)).getD (freshSession now [])).last_mint_time)
        && env.w3 && env.admin_account) := by
  simp only [get_metrics, if_neg hne]

/-- On a valid header the success flag is the truthiness of the mint
result, which is only set when the gate opened. -/
theorem get_metrics_mintSucceeded (env : ChainEnv) (m : SessionMap) (hdr : String)
    (now : ℚ) (hne : hdr ≠ "") :
    (get_metrics env m (some hdr) now).mintSucceeded =
      (if ((decide ((5:ℚ) ≤ now - ((m (strLower hdr)).getD (freshSession now [])).last_mint_time)
            && env.w3 && env.admin_account) = true) then
        mint_tokens_to_wallet env (strLower hdr)
          (((m (strLower hdr)).getD (freshSession now [])).total_earned
            + (calculate_earnings 100000
                (now - ((m (strLower hdr)).getD (freshSession now [])).start_time)).1)
      else (⟨none, false, none⟩ : MintTrace)).result.isSome := by
  simp only [get_metrics, if_neg hne]

/-- On a valid header with a failed (or skipped) settlement attempt, the
session dict is updated only at the queried wallet, whose entry keeps its
`start_time`, `last_mint_time` and `strategies` and carries the
freshly accrued total. -/
theorem get_metrics_sessions_of_fail (env : ChainEnv) (m : SessionMap) (hdr : String)
    (now : ℚ) (hne : hdr ≠ "")
    (hfail : (get_metrics env m (some hdr) now).mintSucceeded = false) :
    (get_metrics env m (some hdr) now).sessions =
      SessionMap.insert m (strLower hdr)
        ⟨((m (strLower hdr)).getD (freshSession now [])).start_time,
          ((m (strLower hdr)).getD (freshSession now [])).total_earned
            + (calculate_earnings 100000
                (now - ((m (strLower hdr)).getD (freshSession now [])).start_time)).1,
          ((m (strLower hdr)).getD (freshSession now [])).last_mint_time,
          ((m (strLower hdr)).getD (freshSession now [])).strategies⟩ := by
  simp only [get_metrics, if_neg hne] at hfail ⊢
  rw [hfail]
  simp

/-- On a valid header with a confirmed settlement, the queried wallet's
entry is zeroed and its `last_mint_time` advances to `now`. -/
theorem get_metrics_sessions_of_succ (env : ChainEnv) (m : SessionMap) (hdr : String)
    (now : ℚ) (hne : hdr ≠ "")
    (hsucc : (get_metrics env m (some hdr) now).mintSucceeded = true) :
    (get_metrics env m (some hdr) now).sessions =
      SessionMap.insert m (strLower hdr)
        ⟨((m (strLower hdr)).getD (freshSession now [])).start_time, 0, now,
          ((m (strLower hdr)).getD (freshSession now [])).strategies⟩ := by
  simp only [get_metrics, if_neg hne] at hsucc ⊢
  rw [hsucc]
  simp

/-- On a valid header the response is always the success JSON, whose
profit fields report the pre-settlement accumulated total. -/
theorem get_metrics_response (env : ChainEnv) (m : SessionMap) (hdr : String)
    (now : ℚ) (hne : hdr ≠ "") :
    (get_metrics env m (some hdr) now).response =
      .ok
        { totalProfit := ((m (strLower hdr)).getD (freshSession now [])).total_earned
            + (calculate_earnings 100000
                (now - ((m (strLower hdr)).getD (freshSession now [])).start_time)).1
          hourlyRate := if 0 < now - ((m (strLower hdr)).getD (freshSession now [])).start_time
            then (calculate_earnings 100000
                (now - ((m (strLower hdr)).getD (freshSession now [])).start_time)).1
              / (now - ((m (strLower hdr)).getD (freshSession now [])).start_time) * 3600
            else 0
          dailyProfit := (if 0 < now - ((m (strLower hdr)).getD (freshSession now [])).start_time
            then (calculate_earnings 100000
                (now - ((m (strLower hdr)).getD (freshSession now [])).start_time)).1
              / (now - ((m (strLower hdr)).getD (freshSession now [])).start_time) * 3600
            else 0) * 24
          activePositions := STRATEGIES.length
          pendingRewards := (((m (strLower hdr)).getD (freshSession now [])).total_earned
            + (calculate_earnings 100000
                (now - ((m (strLower hdr)).getD (freshSession now [])).start_time)).1) * (1/10)
          total_apy_percent := (calculate_earnings 100000
            (now - ((m (strLower hdr)).getD (freshSession now [])).start_time)).2 * 100
          ai_boost := AI_BOOST } := by
  simp only [get_metrics, if_neg hne]

/-- A confirmed settlement presupposes the gate opened and the scaled
amount was strictly positive, hence a strictly positive accumulated
total. -/
theorem get_metrics_succ_pos (env : ChainEnv) (m : SessionMap) (hdr : String)
    (now : ℚ) (hne : hdr ≠ "")
    (hsucc : (get_metrics env m (some hdr) now).mintSucceeded = true) :
    0 < ((m (strLower hdr)).getD (freshSession now [])).total_earned
      + (calculate_earnings 100000
          (now - ((m (strLower hdr)).getD (freshSession now [])).start_time)).1 := by
  rw [get_metrics_mintSucceeded env m hdr now hne] at hsucc
  set acc := ((m (strLower hdr)).getD (freshSession now [])).total_earned
    + (calculate_earnings 100000
        (now - ((m (strLower hdr)).getD (freshSession now [])).start_time)).1 with hacc
  by_cases hatt : ((decide ((5:ℚ) ≤ now - ((m (strLower hdr)).getD (freshSession now [])).last_mint_time)
      && env.w3 && env.admin_account) = true)
  · rw [if_pos hatt] at hsucc
    unfold mint_tokens_to_wallet at hsucc
    by_cases hav : (env.w3 = false ∨ env.admin_account = false)
    · rw [if_pos hav] at hsucc
      simp at hsucc
    · rw [if_neg hav] at hsucc
      by_cases hz : pyInt (acc * 10 ^ 18) ≤ 0
      · rw [if_pos hz] at hsucc
        simp at hsucc
      · push_neg at hz
        have : (0:ℚ) < acc * 10 ^ 18 := pos_of_pyInt_pos hz
        nlinarith
  · rw [if_neg hatt] at hsucc
    simp at hsucc

/-- C1 (amended): for every metrics query whose settlement attempt ends
in any non-Confirmed outcome (Reverted, TimedOut, SubmissionFailed, or
an exception), the account's pendingAmount (session `total_earned`) is
unchanged from its pre-attempt value — the freshly accrued total — AND
its lastSettlementAttempt (session `last_mint_time`) is also unchanged:
the code does not advance the 5-second cooldown on failure. -/
theorem C1_failed_attempt_preserves_state (env : ChainEnv) (m : SessionMap) (hdr : String)
    (now : ℚ) (hne : hdr ≠ "")
    (hcall : (get_metrics env m (some hdr) now).mintCalled = true)
    (hfail : (get_metrics env m (some hdr) now).mintSucceeded = false) :
    (get_metrics env m (some hdr) now).sessions (strLower hdr) =
      some ⟨((m (strLower hdr)).getD (freshSession now [])).start_time,
        ((m (strLower hdr)).getD (freshSession now [])).total_earned
          + (calculate_earnings 100000
              (now - ((m (strLower hdr)).getD (freshSession now [])).start_time)).1,
        ((m (strLower hdr)).getD (freshSession now [])).last_mint_time,
        ((m (strLower hdr)).getD (freshSession now [])).strategies⟩ := by
  rw [get_metrics_sessions_of_fail env m hdr now hne hfail, SessionMap.insert_self]

/-- Witness for C1 (amended): wallet `0xabc` opened at time 0, queried at
time 10 against a chain that reverts the mint. -/
theorem C1_failed_attempt_preserves_state_witness :
    (get_metrics chainRevertEnv oneSessionMap (some "0xabc") 10).sessions (strLower "0xabc") =
      some ⟨((oneSessionMap (strLower "0xabc")).getD (freshSession 10 [])).start_time,
        ((oneSessionMap (strLower "0xabc")).getD (freshSession 10 [])).total_earned
          + (calculate_earnings 100000
              (10 - ((oneSessionMap (strLower "0xabc")).getD (freshSession 10 [])).start_time)).1,
        ((oneSessionMap (strLower "0xabc")).getD (freshSession 10 [])).last_mint_time,
        ((oneSessionMap (strLower "0xabc")).getD (freshSession 10 [])).strategies⟩ :=
  C1_failed_attempt_preserves_state chainRevertEnv oneSessionMap "0xabc" 10 (by decide)
    (by norm_num [get_metrics, oneSessionMap, SessionMap.insert, emptySessions, chainRevertEnv,
          calculate_earnings, STRATEGIES, AI_BOOST, strLower_0xabc, freshSession,
          show ("0xabc":String) ≠ "" from by decide])
    (by
      have hp : (0:ℤ) < pyInt (11156250000000000000 / 73) := pyInt_pos_of_one_le (by norm_num)
      norm_num [get_metrics, oneSessionMap, SessionMap.insert, emptySessions, chainRevertEnv,
        calculate_earnings, STRATEGIES, AI_BOOST, strLower_0xabc, freshSession,
        mint_tokens_to_wallet, not_le.mpr hp,
        show ("0xabc":String) ≠ "" from by decide])

/-- C1 counterexample: wallet `0xabc` opened at time 0 and queried at
time 10 against a chain that reverts the mint: the attempt was made and
failed, yet the stored `last_mint_time` is still 0 — it is NOT updated
to the query's `now = 10`, so the 5-second cooldown does not advance on
failure, contrary to the claim. -/
theorem C1_counterexample :
    (get_metrics chainRevertEnv oneSessionMap (some "0xabc") 10).mintCalled = true ∧
    (get_metrics chainRevertEnv oneSessionMap (some "0xabc") 10).mintSucceeded = false ∧
    ((get_metrics chainRevertEnv oneSessionMap (some "0xabc") 10).sessions "0xabc").map
        Session.last_mint_time = some 0 ∧
    ((get_metrics chainRevertEnv oneSessionMap (some "0xabc") 10).sessions "0xabc").map
        Session.last_mint_time ≠ some 10 := by
  have hp : (0:ℤ) < pyInt (11156250000000000000 / 73) := pyInt_pos_of_one_le (by norm_num)
  refine ⟨?_, ?_, ?_, ?_⟩ <;>
    norm_num [get_metrics, oneSessionMap, SessionMap.insert, emptySessions, chainRevertEnv,
      calculate_earnings, STRATEGIES, AI_BOOST, strLower_0xabc, freshSession,
      mint_tokens_to_wallet, not_le.mpr hp,
      show ("0xabc":String) ≠ "" from by decide]

/-- With the chain collaborator down (`w3` unset), repeated polling never
settles and each query adds the accrual measured from `start_time`. -/
theorem runQueries_offline (env : ChainEnv) (hw3 : env.w3 = false) (w : String)
    (hne : w ≠ "") (hlow : strLower w = w) :
    ∀ (ts : List ℚ) (m : SessionMap) (st e l : ℚ) (strats : List String),
      m w = some ⟨st, e, l, strats⟩ →
      runQueries env w m ts w =
        some ⟨st, e + (ts.map (fun t => 100000 * (357 / 2336000000) * (t - st))).sum,
          l, strats⟩ := by
  intro ts
  induction ts with
  | nil =>
    intro m st e l strats hm
    simpa [runQueries] using hm
  | cons t rest ih =>
    intro m st e l strats hm
    have hfail : (get_metrics env m (some w) t).mintSucceeded = false := by
      rw [get_metrics_mintSucceeded env m w t hne]
      simp [hw3]
    have hsess := get_metrics_sessions_of_fail env m w t hne hfail
    rw [hlow, hm] at hsess
    rw [runQueries, hsess]
    have hm' : SessionMap.insert m w
        ⟨(Option.getD (some (⟨st, e, l, strats⟩ : Session)) (freshSession t [])).start_time,
          (Option.getD (some (⟨st, e, l, strats⟩ : Session)) (freshSession t [])).total_earned
            + (calculate_earnings 100000
                (t - (Option.getD (some (⟨st, e, l, strats⟩ : Session)) (freshSession t [])).start_time)).1,
          (Option.getD (some (⟨st, e, l, strats⟩ : Session)) (freshSession t [])).last_mint_time,
          (Option.getD (some (⟨st, e, l, strats⟩ : Session)) (freshSession t [])).strategies⟩ w =
        some ⟨st, e + 100000 * (357 / 2336000000) * (t - st), l, strats⟩ := by
      rw [SessionMap.insert_self]
      simp [calculate_earnings_fst]
    rw [ih _ st _ l strats hm']
    rw [List.map_cons, List.sum_cons, add_assoc]

/-- C3: on every metrics query the accrual increment is computed from
the elapsed time since the session's `start_time`, not since the
previous query; hence `k` queries at times `t_1 < ... < t_k` after a
start at time 0, with no confirmed settlement (chain down), leave an
accumulated total of `P * perSecondRate * (t_1 + ... + t_k)` with
`P = 100000`. -/
theorem C3_accrual_proportional_to_session_age (env : ChainEnv) (w : String)
    (strats : List String) (m : SessionMap) (ts : List ℚ)
    (hw3 : env.w3 = false) (hne : w ≠ "") (hlow : strLower w = w)
    (hsort : List.Sorted (· < ·) ts) (hpos : ∀ t ∈ ts, 0 < t) :
    runQueries env w (start_engine m w strats 0) ts w =
      some ⟨0, 100000 * (effectiveRateSpec / (365 * 86400)) * ts.sum, 0, strats⟩ := by
  have h0 : (start_engine m w strats 0) w = some ⟨0, 0, 0, strats⟩ := by
    rw [start_engine, hlow, SessionMap.insert_self]
    rfl
  rw [runQueries_offline env hw3 w hne hlow ts _ 0 0 0 strats h0]
  have hr : (100000 : ℚ) * (effectiveRateSpec / (365 * 86400)) = 100000 * (357 / 2336000000) := by
    norm_num [effectiveRateSpec, STRATEGIES, AI_BOOST]
  rw [hr]
  congr 1
  have : (ts.map (fun t => 100000 * (357 / 2336000000 : ℚ) * (t - 0))).sum =
      100000 * (357 / 2336000000 : ℚ) * ts.sum := by
    simp only [sub_zero]
    have := List.sum_map_mul_left ts (fun t => t) (100000 * (357 / 2336000000 : ℚ))
    simpa using this
  rw [this, zero_add]

/-- Witness for C3: two polls at times 6 and 10 with the chain down. -/
theorem C3_accrual_proportional_to_session_age_witness :
    runQueries chainDownEnv "0xabc" (start_engine emptySessions "0xabc" [] 0) [6, 10] "0xabc" =
      some ⟨0, 100000 * (effectiveRateSpec / (365 * 86400)) * ([6, 10] : List ℚ).sum, 0, []⟩ :=
  C3_accrual_proportional_to_session_age chainDownEnv "0xabc" [] emptySessions [6, 10]
    rfl (by decide) strLower_0xabc (by norm_num [List.sorted_cons])
    (by
      intro t ht
      simp only [List.mem_cons, List.not_mem_nil, or_false] at ht
      rcases ht with h | h <;> rw [h] <;> norm_num)

/-- C4: in every reachable (well-formed) session dict, every stored
pendingAmount is non-negative, and this is preserved by every operation;
across one operation an existing account's total either grows by a
non-negative accrual increment or is set to exactly zero, and a drop
from a positive value to zero happens only on a (re)start of that
wallet or on a metrics query whose mint confirmed. -/
theorem C4_pending_nonneg_and_monotone (env : ChainEnv) (m : SessionMap) (T now : ℚ)
    (op : Op) (hwf : SessionsWF m T) (hT : T ≤ now) :
    SessionsWF (applyOp env m op now) now ∧
      ∀ w s s', m w = some s → applyOp env m op now w = some s' →
        (s.total_earned ≤ s'.total_earned ∨ s'.total_earned = 0) ∧
        (s'.total_earned = 0 → 0 < s.total_earned →
          (∃ wa strats, op = .start wa strats ∧ strLower wa = w) ∨
          (∃ hdr, op = .metrics hdr ∧ (get_metrics env m hdr now).mintSucceeded = true)) := by
  cases op with
  | start wa strats =>
    constructor
    · intro w s hs
      simp only [applyOp, start_engine, SessionMap.insert] at hs
      by_cases hw : w = strLower wa
      · rw [if_pos hw] at hs
        cases hs
        simp [freshSession]
      · rw [if_neg hw] at hs
        rcases hwf w s hs with ⟨h1, h2, h3⟩
        exact ⟨h1, le_trans h2 hT, le_trans h3 hT⟩
    · intro w s s' hm h'
      simp only [applyOp, start_engine, SessionMap.insert] at h'
      by_cases hw : w = strLower wa
      · rw [if_pos hw] at h'
        cases h'
        refine ⟨Or.inr rfl, fun _ _ => Or.inl ⟨wa, strats, rfl, hw.symm⟩⟩
      · rw [if_neg hw] at h'
        rw [hm] at h'
        cases h'
        exact ⟨Or.inl le_rfl, fun h0 hpos => absurd h0 (by linarith)⟩
  | stop wa =>
    constructor
    · intro w s hs
      simp only [applyOp, stop_engine, SessionMap.erase] at hs
      by_cases hw : w = strLower (wa.getD "")
      · rw [if_pos hw] at hs
        cases hs
      · rw [if_neg hw] at hs
        rcases hwf w s hs with ⟨h1, h2, h3⟩
        exact ⟨h1, le_trans h2 hT, le_trans h3 hT⟩
    · intro w s s' hm h'
      simp only [applyOp, stop_engine, SessionMap.erase] at h'
      by_cases hw : w = strLower (wa.getD "")
      · rw [if_pos hw] at h'
        cases h'
      · rw [if_neg hw] at h'
        rw [hm] at h'
        cases h'
        exact ⟨Or.inl le_rfl, fun h0 hpos => absurd h0 (by linarith)⟩
  | metrics hdr =>
    have hbase : ∀ (hmm : (applyOp env m (.metrics hdr) now) = m),
        SessionsWF (applyOp env m (.metrics hdr) now) now ∧
          ∀ w s s', m w = some s → applyOp env m (.metrics hdr) now w = some s' →
            (s.total_earned ≤ s'.total_earned ∨ s'.total_earned = 0) ∧
            (s'.total_earned = 0 → 0 < s.total_earned →
              (∃ wa strats, (Op.metrics hdr) = .start wa strats ∧ strLower wa = w) ∨
              (∃ hdr2, (Op.metrics hdr) = .metrics hdr2 ∧
                (get_metrics env m hdr2 now).mintSucceeded = true)) := by
      intro hmm
      rw [hmm]
      constructor
      · intro w s hs
        rcases hwf w s hs with ⟨h1, h2, h3⟩
        exact ⟨h1, le_trans h2 hT, le_trans h3 hT⟩
      · intro w s s' hm' h'
        rw [hm'] at h'
        cases h'
        exact ⟨Or.inl le_rfl, fun h0 hpos => absurd h0 (by linarith)⟩
    cases hdr with
    | none => exact hbase rfl
    | some h =>
      by_cases hne : h = ""
      · subst hne
        exact hbase (by simp [applyOp, get_metrics])
      · have hs0 : 0 ≤ ((m (strLower h)).getD (freshSession now [])).total_earned ∧
            ((m (strLower h)).getD (freshSession now [])).start_time ≤ now ∧
            ((m (strLower h)).getD (freshSession now [])).last_mint_time ≤ now := by
          cases hm0 : m (strLower h) with
          | none => simp [hm0, freshSession]
          | some s =>
            rcases hwf _ s hm0 with ⟨h1, h2, h3⟩
            exact ⟨h1, le_trans h2 hT, le_trans h3 hT⟩
        have hinc : 0 ≤ (calculate_earnings 100000
            (now - ((m (strLower h)).getD (freshSession now [])).start_time)).1 :=
          calculate_earnings_fst_nonneg _ _ (by norm_num) (by linarith [hs0.2.1])
        cases hms : (get_metrics env m (some h) now).mintSucceeded with
        | true =>
          have hsess := get_metrics_sessions_of_succ env m h now hne hms
          constructor
          · intro w s hs
            simp only [applyOp] at hs
            rw [hsess] at hs
            by_cases hw : w = strLower h
            · rw [hw, SessionMap.insert_self] at hs
              cases hs
              exact ⟨le_rfl, hs0.2.1, le_rfl⟩
            · rw [SessionMap.insert_other _ _ _ _ hw] at hs
              rcases hwf w s hs with ⟨h1, h2, h3⟩
              exact ⟨h1, le_trans h2 hT, le_trans h3 hT⟩
          · intro w s s' hm' h'
            simp only [applyOp] at h'
            rw [hsess] at h'
            by_cases hw : w = strLower h
            · rw [hw, SessionMap.insert_self] at h'
              cases h'
              exact ⟨Or.inr rfl, fun _ _ => Or.inr ⟨some h, rfl, hms⟩⟩
            · rw [SessionMap.insert_other _ _ _ _ hw] at h'
              rw [hm'] at h'
              cases h'
              exact ⟨Or.inl le_rfl, fun h0 hpos => absurd h0 (by linarith)⟩
        | false =>
          have hsess := get_metrics_sessions_of_fail env m h now hne hms
          constructor
          · intro w s hs
            simp only [applyOp] at hs
            rw [hsess] at hs
            by_cases hw : w = strLower h
            · rw [hw, SessionMap.insert_self] at hs
              cases hs
              refine ⟨?_, hs0.2.1, hs0.2.2⟩
              show 0 ≤ ((m (strLower h)).getD (freshSession now [])).total_earned
                + (calculate_earnings 100000
                    (now - ((m (strLower h)).getD (freshSession now [])).start_time)).1
              linarith [hs0.1, hinc]
            · rw [SessionMap.insert_other _ _ _ _ hw] at hs
              rcases hwf w s hs with ⟨h1, h2, h3⟩
              exact ⟨h1, le_trans h2 hT, le_trans h3 hT⟩
          · intro w s s' hm' h'
            simp only [applyOp] at h'
            rw [hsess] at h'
            by_cases hw : w = strLower h
            · rw [hw, SessionMap.insert_self] at h'
              have hgd : (m (strLower h)).getD (freshSession now []) = s := by
                rw [← hw, hm']
                rfl
              rw [hgd] at h'
              have hs' : s' = ⟨s.start_time,
                  s.total_earned + (calculate_earnings 100000 (now - s.start_time)).1,
                  s.last_mint_time, s.strategies⟩ := by
                injection h' with h2
                exact h2.symm
              have hinc' : 0 ≤ (calculate_earnings 100000 (now - s.start_time)).1 := by
                rw [hgd] at hinc
                exact hinc
              constructor
              · left
                rw [hs']
                show s.total_earned ≤ s.total_earned
                  + (calculate_earnings 100000 (now - s.start_time)).1
                linarith
              · intro h0 hpos
                rw [hs'] at h0
                have h0' : s.total_earned
                    + (calculate_earnings 100000 (now - s.start_time)).1 = 0 := h0
                exfalso
                linarith
            · rw [SessionMap.insert_other _ _ _ _ hw] at h'
              rw [hm'] at h'
              cases h'
              exact ⟨Or.inl le_rfl, fun h0 hpos => absurd h0 (by linarith)⟩

/-- Witness for C4: a concrete start operation applied to the empty dict
at time 1 with well-formedness known at time 0. -/
theorem C4_pending_nonneg_and_monotone_witness :
    SessionsWF (applyOp chainDownEnv emptySessions (.start "0xabc" []) 1) 1 ∧
      ∀ w s s', emptySessions w = some s →
        applyOp chainDownEnv emptySessions (.start "0xabc" []) 1 w = some s' →
        (s.total_earned ≤ s'.total_earned ∨ s'.total_earned = 0) ∧
        (s'.total_earned = 0 → 0 < s.total_earned →
          (∃ wa strats, (Op.start "0xabc" []) = Op.start wa strats ∧ strLower wa = w) ∨
          (∃ hdr, (Op.start "0xabc" []) = Op.metrics hdr ∧
            (get_metrics chainDownEnv emptySessions hdr 1).mintSucceeded = true)) :=
  C4_pending_nonneg_and_monotone chainDownEnv emptySessions 0 1 (.start "0xabc" [])
    (fun w s hs => by simp [emptySessions] at hs) (by norm_num)

/-- C5: a metrics query initiates a mint call if and only if at least 5
seconds have elapsed since the tracked wallet's `last_mint_time` AND the
chain collaborator is available (`w3` connected, signing key
configured).  A wallet without a session gets a fresh one whose
`last_mint_time` is `now`, so it never triggers a call. -/
theorem C5_settlement_gate (env : ChainEnv) (m : SessionMap) (hdr : String) (now : ℚ)
    (hne : hdr ≠ "") :
    (get_metrics env m (some hdr) now).mintCalled = true ↔
      (5 ≤ now - ((m (strLower hdr)).getD (freshSession now [])).last_mint_time ∧
        env.w3 = true ∧ env.admin_account = true) := by
  rw [get_metrics_mintCalled env m hdr now hne]
  simp [Bool.and_eq_true, decide_eq_true_eq, and_assoc]

/-- Witness for C5: at 5.1 seconds since the last attempt with the chain
available, the gate opens. -/
theorem C5_settlement_gate_witness :
    (get_metrics chainRevertEnv oneSessionMap (some "0xabc") (51/10)).mintCalled = true ↔
      (5 ≤ (51/10 : ℚ) -
          ((oneSessionMap (strLower "0xabc")).getD (freshSession (51/10) [])).last_mint_time ∧
        chainRevertEnv.w3 = true ∧ chainRevertEnv.admin_account = true) :=
  C5_settlement_gate chainRevertEnv oneSessionMap "0xabc" (51/10) (by decide)

/-- C6: the amount transmitted on-chain is exactly the integer part of
`amount * 10^18` (Python `int()` truncation), and when that scaled
integer is ≤ 0 no transaction is built, signed or submitted and the call
returns `None`. -/
theorem C6_wei_scaling_gate (env : ChainEnv) (w : String) (amount : ℚ) :
    (∀ z : ℤ, (mint_tokens_to_wallet env w amount).sentAmount = some z →
        z = pyInt (amount * 10 ^ 18)) ∧
    (pyInt (amount * 10 ^ 18) ≤ 0 →
      (mint_tokens_to_wallet env w amount).submitted = false ∧
      (mint_tokens_to_wallet env w amount).result = none ∧
      (mint_tokens_to_wallet env w amount).sentAmount = none) := by
  constructor
  · intro z hzz
    simp only [mint_tokens_to_wallet] at hzz
    by_cases hav : (env.w3 = false ∨ env.admin_account = false)
    · rw [if_pos hav] at hzz
      cases hzz
    · rw [if_neg hav] at hzz
      by_cases hz : pyInt (amount * 10 ^ 18) ≤ 0
      · rw [if_pos hz] at hzz
        cases hzz
      · rw [if_neg hz] at hzz
        cases hsub : env.submit w (pyInt (amount * 10 ^ 18)) with
        | confirmed a b =>
          rw [hsub] at hzz
          simp only [Option.some.injEq] at hzz
          exact hzz.symm
        | reverted a =>
          rw [hsub] at hzz
          simp only [Option.some.injEq] at hzz
          exact hzz.symm
        | timeout =>
          rw [hsub] at hzz
          simp only [Option.some.injEq] at hzz
          exact hzz.symm
        | submitError r =>
          rw [hsub] at hzz
          cases hzz
  · intro hz
    simp only [mint_tokens_to_wallet]
    by_cases hav : (env.w3 = false ∨ env.admin_account = false)
    · rw [if_pos hav]
      exact ⟨rfl, rfl, rfl⟩
    · rw [if_neg hav]
      rw [if_pos hz]
      exact ⟨rfl, rfl, rfl⟩

/-- Witness for C6: a zero amount scales to zero and is never
submitted. -/
theorem C6_wei_scaling_gate_witness :
    (mint_tokens_to_wallet chainConfirmEnv "0xabc" 0).submitted = false ∧
    (mint_tokens_to_wallet chainConfirmEnv "0xabc" 0).result = none ∧
    (mint_tokens_to_wallet chainConfirmEnv "0xabc" 0).sentAmount = none :=
  (C6_wei_scaling_gate chainConfirmEnv "0xabc" 0).2
    (pyInt_nonpos (by norm_num))

/-- C7: starting an already-tracked wallet overwrites its session: the
total is reset to zero, both timestamps are set to the second start's
`now`, and the prior unsettled accrual is discarded. -/
theorem C7_restart_overwrites (m : SessionMap) (w : String) (strats : List String)
    (now : ℚ) (s : Session) (hexists : m (strLower w) = some s) :
    (start_engine m w strats now) (strLower w) = some ⟨now, 0, now, strats⟩ := by
  rw [start_engine, SessionMap.insert_self]
  rfl

/-- Witness for C7: restarting `0xabc`, which is tracked with an earlier
session, at time 7. -/
theorem C7_restart_overwrites_witness :
    (start_engine oneSessionMap "0xabc" ["mev_arb"] 7) (strLower "0xabc") =
      some ⟨7, 0, 7, ["mev_arb"]⟩ :=
  C7_restart_overwrites oneSessionMap "0xabc" ["mev_arb"] 7 ⟨0, 0, 0, []⟩
    (by norm_num [oneSessionMap, SessionMap.insert, emptySessions, strLower_0xabc])

/-- C8: stopping removes the (lowercased) wallet's session, and a
subsequent metrics query for the same address re-creates a fresh account
with zero total and both timestamps equal to the query's `now`. -/
theorem C8_stop_then_fresh (env : ChainEnv) (m : SessionMap) (w : String) (t2 : ℚ)
    (hne : w ≠ "") :
    (stop_engine m (some w)) (strLower w) = none ∧
    (get_metrics env (stop_engine m (some w)) (some w) t2).sessions (strLower w) =
      some ⟨t2, 0, t2, []⟩ := by
  have h1 : (stop_engine m (some w)) (strLower w) = none := by
    rw [stop_engine]
    exact SessionMap.erase_self m (strLower w)
  refine ⟨h1, ?_⟩
  have hfail : (get_metrics env (stop_engine m (some w)) (some w) t2).mintSucceeded = false := by
    rw [get_metrics_mintSucceeded env _ w t2 hne, h1]
    norm_num [freshSession]
  rw [get_metrics_sessions_of_fail env _ w t2 hne hfail, SessionMap.insert_self, h1]
  norm_num [freshSession, calculate_earnings_fst]

/-- Witness for C8: stop `0xabc` and poll again at time 3. -/
theorem C8_stop_then_fresh_witness :
    (stop_engine oneSessionMap (some "0xabc")) (strLower "0xabc") = none ∧
    (get_metrics chainConfirmEnv (stop_engine oneSessionMap (some "0xabc"))
        (some "0xabc") 3).sessions (strLower "0xabc") = some ⟨3, 0, 3, []⟩ :=
  C8_stop_then_fresh chainConfirmEnv oneSessionMap "0xabc" 3 (by decide)

/-- C9 counterexample: a present but empty wallet-address header also
raises the 400 error, although such a header is not missing; the claim's
"error iff the header is missing" fails in the only-if direction. -/
theorem C9_counterexample :
    metricsIsError (get_metrics chainDownEnv emptySessions (some "") 0).response = true ∧
      (some "" : Option String) ≠ none := by
  exact ⟨rfl, by simp⟩

/-- C9 (amended): the metrics endpoint returns a caller-facing error —
always the 400 "Wallet address header required" — if and only if the
wallet-address header is missing OR present but empty; for every other
header and every chain environment (unavailable node, failed, reverted
or timed-out mint, exceptions) it returns the success JSON. -/
theorem C9_error_iff_missing_or_empty (env : ChainEnv) (m : SessionMap)
    (hdr : Option String) (now : ℚ) :
    (metricsIsError (get_metrics env m hdr now).response = true ↔
        (hdr = none ∨ hdr = some "")) ∧
    ((hdr = none ∨ hdr = some "") →
      (get_metrics env m hdr now).response =
        .httpError 400 "Wallet address header required") := by
  cases hdr with
  | none =>
    refine ⟨?_, fun _ => rfl⟩
    simp [get_metrics, metricsIsError]
  | some h =>
    by_cases hne : h = ""
    · subst hne
      refine ⟨?_, fun _ => rfl⟩
      simp [get_metrics, metricsIsError]
    · constructor
      · rw [get_metrics_response env m h now hne]
        simp [metricsIsError, hne]
      · intro hbad
        rcases hbad with hbad | hbad
        · cases hbad
        · rw [Option.some.injEq] at hbad
          exact absurd hbad hne

/-- Witness for C9: a well-formed header never yields an error, whatever
the chain does. -/
theorem C9_error_iff_missing_or_empty_witness :
    metricsIsError (get_metrics chainRevertEnv emptySessions (some "0xabc") 0).response
      = false := by
  have h := (C9_error_iff_missing_or_empty chainRevertEnv emptySessions (some "0xabc") 0).1
  cases hb : metricsIsError (get_metrics chainRevertEnv emptySessions (some "0xabc") 0).response
  · rfl
  · exfalso
    rcases h.mp hb with h2 | h2
    · cases h2
    · rw [Option.some.injEq] at h2
      exact absurd h2 (by decide)

/-- C10: when a metrics query's settlement confirms, the response's
totalProfit is the pre-reset accumulated total — strictly positive — and
pendingRewards is 10% of it, while the stored session total is
simultaneously zero with `last_mint_time` advanced to `now`; the
just-reset zero value is never reported. -/
theorem C10_confirmed_reports_preset_total (env : ChainEnv) (m : SessionMap)
    (hdr : String) (now : ℚ) (hne : hdr ≠ "")
    (hsucc : (get_metrics env m (some hdr) now).mintSucceeded = true) :
    ∃ snap, (get_metrics env m (some hdr) now).response = .ok snap ∧
      snap.totalProfit = ((m (strLower hdr)).getD (freshSession now [])).total_earned
        + (calculate_earnings 100000
            (now - ((m (strLower hdr)).getD (freshSession now [])).start_time)).1 ∧
      snap.pendingRewards = snap.totalProfit * (1/10) ∧
      0 < snap.totalProfit ∧
      (get_metrics env m (some hdr) now).sessions (strLower hdr) =
        some ⟨((m (strLower hdr)).getD (freshSession now [])).start_time, 0, now,
          ((m (strLower hdr)).getD (freshSession now [])).strategies⟩ := by
  refine ⟨_, get_metrics_response env m hdr now hne, rfl, rfl, ?_, ?_⟩
  · exact get_metrics_succ_pos env m hdr now hne hsucc
  · rw [get_metrics_sessions_of_succ env m hdr now hne hsucc, SessionMap.insert_self]

/-- Witness for C10: wallet `0xabc` opened at time 0, queried at time 10
against a chain that confirms the mint. -/
theorem C10_confirmed_reports_preset_total_witness :
    ∃ snap, (get_metrics chainConfirmEnv oneSessionMap (some "0xabc") 10).response
        = .ok snap ∧
      snap.totalProfit =
        ((oneSessionMap (strLower "0xabc")).getD (freshSession 10 [])).total_earned
          + (calculate_earnings 100000
              (10 - ((oneSessionMap (strLower "0xabc")).getD
                  (freshSession 10 [])).start_time)).1 ∧
      snap.pendingRewards = snap.totalProfit * (1/10) ∧
      0 < snap.totalProfit ∧
      (get_metrics chainConfirmEnv oneSessionMap (some "0xabc") 10).sessions
          (strLower "0xabc") =
        some ⟨((oneSessionMap (strLower "0xabc")).getD (freshSession 10 [])).start_time,
          0, 10,
          ((oneSessionMap (strLower "0xabc")).getD (freshSession 10 [])).strategies⟩ :=
  C10_confirmed_reports_preset_total chainConfirmEnv oneSessionMap "0xabc" 10 (by decide)
    (by
      have hp : (0:ℤ) < pyInt (11156250000000000000 / 73) := pyInt_pos_of_one_le (by norm_num)
      norm_num [get_metrics, oneSessionMap, SessionMap.insert, emptySessions, chainConfirmEnv,
        calculate_earnings, STRATEGIES, AI_BOOST, strLower_0xabc, freshSession,
        mint_tokens_to_wallet, not_le.mpr hp,
        show ("0xabc":String) ≠ "" from by decide])
